import Mathlib

/-!
Verification of the gesture-control-glove core against its sources:
the ESP32 firmware sketch (rule-based detector, debounce, rate-limited
BLE transmission, wire encoding), the host-side wire-frame decoder and
ML arbitration in `GestureVisualizer.jsx`, and the `GestureClassifier`
(normalization, sample store, training gate, persistence) in
`ml/GestureClassifier.js`.

Wire strings are modelled as `List Char` (JS strings over the ASCII
alphabet the protocol uses); JS numbers that are always integers in the
protocol are modelled as `Int`, with `Option` capturing `NaN` and
`undefined` where they can arise; the 32-bit `millis()` clock is
modelled as an unbounded `Nat` (exact for runs shorter than the 2^32 ms
wrap, about 49.7 days).
-/

namespace GestureGlove

/-! ## Device-side rule-based detector (ESP32 sketch)

Translated from the firmware: threshold globals, `detectGesture`, and the
debounce / rate-limit logic of `loop`. -/

/-- Firmware global `FLEX_HIGH` (default threshold). -/
def FLEX_HIGH : Int := 2600

/-- Firmware global `FLEX_LOW` (default threshold). -/
def FLEX_LOW : Int := 1200

/-- Firmware global `GYRO_THR` (default threshold). -/
def GYRO_THR : Int := 8000

/-- Firmware global `ACC_THR` (default threshold). -/
def ACC_THR : Int := 14000

/-- Firmware `detectGesture(f1, f2, ax, ay, az, gx, gy, gz)`: the
priority chain of threshold tests returning a gesture id 0..8. -/
def detectGesture (f1 f2 ax ay az gx gy gz : Int) : Nat :=
  if gz < -GYRO_THR then 3
  else if gz > GYRO_THR then 4
  else if ay < -ACC_THR then 5
  else if ay > ACC_THR then 6
  else if ax > ACC_THR then 7
  else if ax < -ACC_THR then 8
  else if f1 > FLEX_HIGH - 200 ∧ f2 > FLEX_HIGH - 200 then 1
  else if f1 < FLEX_LOW + 200 ∧ f2 < FLEX_LOW + 200 then 2
  else 0

/-- The firmware's mutable detector state: globals `currentGesture`,
`gestureCount` and `lastSend`. -/
structure DevState where
  currentGesture : Nat
  gestureCount : Nat
  lastSend : Nat
deriving DecidableEq

/-- The debounce update of the firmware `loop`:
`if (detected == currentGesture) { if (gestureCount < 3) gestureCount++; }
else { currentGesture = detected; gestureCount = 0; }`. -/
def debounceUpdate (s : DevState) (detected : Nat) : DevState :=
  if detected = s.currentGesture then
    { s with gestureCount := if s.gestureCount < 3 then s.gestureCount + 1 else s.gestureCount }
  else
    { currentGesture := detected, gestureCount := 0, lastSend := s.lastSend }

/-- One iteration of the firmware `loop` after the sensor read, taking the
raw classification `detected` as input: the debounce update followed by the
guarded transmission
(`if (connected && gestureCount == 3 && now - lastSend >= 120) ...`),
which updates `lastSend` to `now`. Returns the new state and
`some currentGesture` when a frame was notified, `none` otherwise. -/
def debounceStep (s : DevState) (detected : Nat) (connected : Bool) (now : Nat) :
    DevState × Option Nat :=
  if connected = true ∧ (debounceUpdate s detected).gestureCount = 3 ∧
      120 ≤ now - (debounceUpdate s detected).lastSend then
    ({ debounceUpdate s detected with lastSend := now },
      some (debounceUpdate s detected).currentGesture)
  else (debounceUpdate s detected, none)

/-- Run the loop over a list of per-tick inputs `(detected, connected, now)`,
collecting the per-tick transmission outcome. -/
def runDet (s : DevState) : List (Nat × Bool × Nat) → DevState × List (Option Nat)
  | [] => (s, [])
  | (d, conn, now) :: rest =>
    let step := debounceStep s d conn now
    let tail := runDet step.1 rest
    (tail.1, step.2 :: tail.2)

/-- Per-tick inputs for a run of raw classifications ticked every 30 ms
starting at time `t0` (the firmware loop's `delay(30)` cadence). -/
def ticksAt (t0 : Nat) (connected : Bool) : List Nat → List (Nat × Bool × Nat)
  | [] => []
  | d :: ds => (d, connected, t0) :: ticksAt (t0 + 30) connected ds

/-- The times at which a run of the loop transmits a frame. -/
def sendTimes (s : DevState) : List (Nat × Bool × Nat) → List Nat
  | [] => []
  | (d, conn, now) :: rest =>
    if (debounceStep s d conn now).2.isSome then
      now :: sendTimes (debounceStep s d conn now).1 rest
    else
      sendTimes (debounceStep s d conn now).1 rest

/-- The debounce update never touches `lastSend`. -/
theorem debounceUpdate_lastSend (s : DevState) (d : Nat) :
    (debounceUpdate s d).lastSend = s.lastSend := by
  unfold debounceUpdate
  split <;> rfl

/-- A transmitting step requires an active link and an elapsed time of at
least 120 ms since `lastSend`, and stamps `lastSend` with the current time. -/
theorem debounceStep_send (s : DevState) (d : Nat) (conn : Bool) (now : Nat)
    (h : (debounceStep s d conn now).2.isSome = true) :
    conn = true ∧ s.lastSend + 120 ≤ now ∧ (debounceStep s d conn now).1.lastSend = now := by
  unfold debounceStep at h ⊢
  split at h
  case isTrue hc =>
    rw [if_pos hc]
    obtain ⟨hconn, _, helapsed⟩ := hc
    rw [debounceUpdate_lastSend] at helapsed
    exact ⟨hconn, by omega, rfl⟩
  case isFalse => simp at h

/-- A non-transmitting step leaves `lastSend` unchanged. -/
theorem debounceStep_no_send (s : DevState) (d : Nat) (conn : Bool) (now : Nat)
    (h : (debounceStep s d conn now).2.isSome = false) :
    (debounceStep s d conn now).1.lastSend = s.lastSend := by
  unfold debounceStep at h ⊢
  split at h
  case isTrue => simp at h
  case isFalse hc =>
    rw [if_neg hc]
    exact debounceUpdate_lastSend s d

/-- Consecutive transmission times of any run are at least 120 ms apart,
and the first one is at least 120 ms after the initial `lastSend`. -/
theorem sendTimes_spaced (inputs : List (Nat × Bool × Nat)) :
    ∀ s : DevState, List.Chain' (fun a b => a + 120 ≤ b) (sendTimes s inputs) ∧
      (∀ x, (sendTimes s inputs).head? = some x → s.lastSend + 120 ≤ x) := by
  induction inputs with
  | nil => intro s; simp [sendTimes]
  | cons i rest ih =>
    intro s
    obtain ⟨d, conn, now⟩ := i
    by_cases h : (debounceStep s d conn now).2.isSome = true
    · have hsend := debounceStep_send s d conn now h
      have tail := ih (debounceStep s d conn now).1
      refine ⟨?_, ?_⟩
      · simp only [sendTimes, if_pos h]
        refine List.chain'_cons'.mpr ⟨?_, tail.1⟩
        intro y hy
        have := tail.2 y hy
        omega
      · intro x hx
        simp only [sendTimes, if_pos h, List.head?_cons, Option.some.injEq] at hx
        subst hx
        exact hsend.2.1
    · have hns := debounceStep_no_send s d conn now (by simpa using h)
      have tail := ih (debounceStep s d conn now).1
      refine ⟨?_, ?_⟩
      · simp only [sendTimes, if_neg h]
        exact tail.1
      · intro x hx
        simp only [sendTimes, if_neg h] at hx
        have hb := tail.2 x hx
        rw [hns] at hb
        omega

/-- C8: in every reachable state of the device loop's step relation, two
transmissions never occur less than 120 ms apart: a step transmits only when
the link is active and at least 120 ms elapsed since `lastSend`, `lastSend`
is stamped with the transmission time, and along any run (any raw
classification / connection / clock inputs) consecutive transmission times
are at least 120 ms apart — at most one frame per 120 ms. -/
theorem transmission_rate_limited :
    (∀ (s : DevState) (d : Nat) (conn : Bool) (now : Nat),
        (debounceStep s d conn now).2.isSome = true →
          conn = true ∧ s.lastSend + 120 ≤ now ∧
            (debounceStep s d conn now).1.lastSend = now) ∧
    (∀ (s : DevState) (inputs : List (Nat × Bool × Nat)),
        List.Chain' (fun a b => a + 120 ≤ b) (sendTimes s inputs)) :=
  ⟨debounceStep_send, fun s inputs => (sendTimes_spaced inputs s).1⟩

set_option maxHeartbeats 1600000 in
/-- C5: `detectGesture` evaluates the priority list in order (gz waves, then
ay tilts, then ax tilts, then flex FIST, then flex OPEN_HAND, else IDLE)
with first match winning, the default thresholds are FLEX_HIGH=2600,
FLEX_LOW=1200, GYRO_THR=8000, ACC_THR=14000, and the frame
f1=f2=3000, ax=ay=az=gx=gy=gz=0 classifies as FIST(1) since both flex
channels exceed FLEX_HIGH - 200 = 2400. -/
theorem detectGesture_priority_first_match :
    (∀ f1 f2 ax ay az gx gy gz : Int,
      (gz < -GYRO_THR → detectGesture f1 f2 ax ay az gx gy gz = 3) ∧
      (¬gz < -GYRO_THR → gz > GYRO_THR →
        detectGesture f1 f2 ax ay az gx gy gz = 4) ∧
      (¬gz < -GYRO_THR → ¬gz > GYRO_THR → ay < -ACC_THR →
        detectGesture f1 f2 ax ay az gx gy gz = 5) ∧
      (¬gz < -GYRO_THR → ¬gz > GYRO_THR → ¬ay < -ACC_THR → ay > ACC_THR →
        detectGesture f1 f2 ax ay az gx gy gz = 6) ∧
      (¬gz < -GYRO_THR → ¬gz > GYRO_THR → ¬ay < -ACC_THR → ¬ay > ACC_THR →
        ax > ACC_THR → detectGesture f1 f2 ax ay az gx gy gz = 7) ∧
      (¬gz < -GYRO_THR → ¬gz > GYRO_THR → ¬ay < -ACC_THR → ¬ay > ACC_THR →
        ¬ax > ACC_THR → ax < -ACC_THR →
        detectGesture f1 f2 ax ay az gx gy gz = 8) ∧
      (¬gz < -GYRO_THR → ¬gz > GYRO_THR → ¬ay < -ACC_THR → ¬ay > ACC_THR →
        ¬ax > ACC_THR → ¬ax < -ACC_THR →
        f1 > FLEX_HIGH - 200 → f2 > FLEX_HIGH - 200 →
        detectGesture f1 f2 ax ay az gx gy gz = 1) ∧
      (¬gz < -GYRO_THR → ¬gz > GYRO_THR → ¬ay < -ACC_THR → ¬ay > ACC_THR →
        ¬ax > ACC_THR → ¬ax < -ACC_THR →
        ¬(f1 > FLEX_HIGH - 200 ∧ f2 > FLEX_HIGH - 200) →
        f1 < FLEX_LOW + 200 → f2 < FLEX_LOW + 200 →
        detectGesture f1 f2 ax ay az gx gy gz = 2) ∧
      (¬gz < -GYRO_THR → ¬gz > GYRO_THR → ¬ay < -ACC_THR → ¬ay > ACC_THR →
        ¬ax > ACC_THR → ¬ax < -ACC_THR →
        ¬(f1 > FLEX_HIGH - 200 ∧ f2 > FLEX_HIGH - 200) →
        ¬(f1 < FLEX_LOW + 200 ∧ f2 < FLEX_LOW + 200) →
        detectGesture f1 f2 ax ay az gx gy gz = 0)) ∧
    (FLEX_HIGH = 2600 ∧ FLEX_LOW = 1200 ∧ GYRO_THR = 8000 ∧ ACC_THR = 14000 ∧
      FLEX_HIGH - 200 = 2400) ∧
    detectGesture 3000 3000 0 0 0 0 0 0 = 1 := by
  refine ⟨?_, by norm_num [FLEX_HIGH, FLEX_LOW, GYRO_THR, ACC_THR], by decide⟩
  intro f1 f2 ax ay az gx gy gz
  refine ⟨fun h1 => ?_, fun h1 h2 => ?_, fun h1 h2 h3 => ?_, fun h1 h2 h3 h4 => ?_,
    fun h1 h2 h3 h4 h5 => ?_, fun h1 h2 h3 h4 h5 h6 => ?_,
    fun h1 h2 h3 h4 h5 h6 hf1 hf2 => ?_, fun h1 h2 h3 h4 h5 h6 hfist ho1 ho2 => ?_,
    fun h1 h2 h3 h4 h5 h6 hfist hopen => ?_⟩ <;>
      simp only [detectGesture]
  · rw [if_pos h1]
  · rw [if_neg h1, if_pos h2]
  · rw [if_neg h1, if_neg h2, if_pos h3]
  · rw [if_neg h1, if_neg h2, if_neg h3, if_pos h4]
  · rw [if_neg h1, if_neg h2, if_neg h3, if_neg h4, if_pos h5]
  · rw [if_neg h1, if_neg h2, if_neg h3, if_neg h4, if_neg h5, if_pos h6]
  · rw [if_neg h1, if_neg h2, if_neg h3, if_neg h4, if_neg h5, if_neg h6,
      if_pos ⟨hf1, hf2⟩]
  · rw [if_neg h1, if_neg h2, if_neg h3, if_neg h4, if_neg h5, if_neg h6,
      if_neg hfist, if_pos ⟨ho1, ho2⟩]
  · rw [if_neg h1, if_neg h2, if_neg h3, if_neg h4, if_neg h5, if_neg h6,
      if_neg hfist, if_neg hopen]

/-- C1 counterexample: the detector step machine started in the firmware's
initial state (currentGesture 0, gestureCount 0, lastSend 0), ticked every
30 ms from t0 = 200 (rate-limit timer expired) with the raw classification
sequence [A,A,A,B,B,B,B] for A = 1, B = 2, link active, transmits NO frame
for A at all (the claim demands exactly one, on the 3rd consecutive A) and
transmits for B only on the 7th tick, the 4th consecutive B (the claim
demands the 3rd): a gesture change resets `gestureCount` to 0 on the
changing tick, so `gestureCount == 3` needs three further matching ticks. -/
theorem debounce_AAABBBB_refuted :
    (runDet ⟨0, 0, 0⟩ (ticksAt 200 true [1, 1, 1, 2, 2, 2, 2])).2 =
      [none, none, none, none, none, none, some 2] ∧
    (runDet ⟨0, 0, 0⟩ (ticksAt 200 true [1, 1, 1, 2, 2, 2, 2])).2.count (some 1) = 0 ∧
    (runDet ⟨0, 0, 0⟩ (ticksAt 200 true [1, 1, 1, 2, 2, 2, 2])).2.count (some 2) = 1 := by
  decide

/-- C1 (amended): for the detector step machine started in any state whose
`currentGesture` differs from A and whose rate-limit timer is expired
(`lastSend + 120 ≤ t0`), ticked every 30 ms with the raw classification
sequence [A,A,A,B,B,B,B] (A ≠ B, link active), no frame is ever
transmitted for A — three consecutive A classifications only bring
`gestureCount` to 2, since the changing tick resets it to 0 — and a frame
is transmitted exactly once, for B, on the 7th tick: the 4th consecutive B. -/
theorem debounce_AAABBBB_sends_B_on_fourth (A B : Nat) (s : DevState) (t0 : Nat)
    (hA : s.currentGesture ≠ A) (hAB : A ≠ B) (hrate : s.lastSend + 120 ≤ t0) :
    (runDet s (ticksAt t0 true [A, A, A, B, B, B, B])).2 =
      [none, none, none, none, none, none, some B] := by
  obtain ⟨g, c, last⟩ := s
  have hAg : ¬(A = g) := fun h => hA h.symm
  have hBA : ¬(B = A) := fun h => hAB h.symm
  have h7 : 120 ≤ t0 + 30 + 30 + 30 + 30 + 30 + 30 - last := by
    simp only [DevState.lastSend] at hrate
    omega
  simp [runDet, ticksAt, debounceStep, debounceUpdate, hAg, hBA, h7]

/-- Witness for the amended C1 theorem at a concrete input: A = 3, B = 4,
start state (0, 2, 50), t0 = 500. -/
theorem debounce_AAABBBB_sends_B_on_fourth_witness :
    (runDet ⟨0, 2, 50⟩ (ticksAt 500 true [3, 3, 3, 4, 4, 4, 4])).2 =
      [none, none, none, none, none, none, some 4] :=
  debounce_AAABBBB_sends_B_on_fourth 3 4 ⟨0, 2, 50⟩ 500
    (by decide) (by decide) (by decide)

/-! ## Wire protocol

Host-side decoding translated from `parseData` in `GestureVisualizer.jsx`
(lines 103-113), device-side encoding from the firmware's
`snprintf(buf, sizeof(buf), "%d:%s|%d,%d,%d,%d,%d,%d,%d,%d", ...)`.
JS strings are modelled as `List Char`. -/

/-- JS `String.prototype.split` with a one-character separator: splits on
every occurrence, keeping empty segments, and yields `[""]` on the empty
string. -/
def splitOnChar (sep : Char) : List Char → List (List Char)
  | [] => [[]]
  | c :: rest =>
    let parts := splitOnChar sep rest
    if c = sep then [] :: parts
    else (c :: parts.headD []) :: parts.tail

/-- ASCII decimal-digit test. -/
def isDigitChar (c : Char) : Bool := decide ('0' ≤ c) && decide (c ≤ '9')

/-- The value of a most-significant-first decimal-digit string. -/
def digitsVal (s : List Char) : Nat :=
  s.foldl (fun a c => 10 * a + (c.toNat - 48)) 0

/-- The value of a string that is entirely a nonempty run of decimal
digits; `none` otherwise. -/
def parseDigitsAll (s : List Char) : Option Nat :=
  if s ≠ [] ∧ s.all isDigitChar = true then some (digitsVal s) else none

/-- Model of the JS `Number(string)` conversion on the forms the wire
protocol produces: the empty string converts to 0, an optionally signed
nonempty decimal-digit string to the corresponding integer, and anything
else to NaN (`none`). (Full JS `Number` also accepts fractional, exponent,
hex and whitespace-padded forms; none of them occurs in any statement of
this development.) -/
def jsNumber (s : List Char) : Option Int :=
  match s with
  | [] => some 0
  | c :: rest =>
    if c = '-' then (parseDigitsAll rest).map (fun n => -Int.ofNat n)
    else if c = '+' then (parseDigitsAll rest).map Int.ofNat
    else (parseDigitsAll (c :: rest)).map Int.ofNat

/-- The value of the maximal leading run of decimal digits; `none` when
that run is empty. -/
def leadingDigitsVal (s : List Char) : Option Nat :=
  if s.takeWhile isDigitChar = [] then none
  else some (digitsVal (s.takeWhile isDigitChar))

/-- Model of JS `parseInt(string)` in base 10: an optional sign followed by
the maximal leading run of decimal digits, ignoring any trailing
characters; NaN (`none`) when there is no leading digit. (Leading
whitespace and the hex prefix are not modelled; no statement here uses
them.) -/
def jsParseInt (s : List Char) : Option Int :=
  match s with
  | [] => none
  | c :: rest =>
    if c = '-' then (leadingDigitsVal rest).map (fun n => -Int.ofNat n)
    else if c = '+' then (leadingDigitsVal rest).map Int.ofNat
    else (leadingDigitsVal (c :: rest)).map Int.ofNat

/-- A JS value as it appears in the destructured sensor fields: missing
(`undefined`), `NaN`, or an integer. -/
inductive JsVal where
  | undef
  | nan
  | num (i : Int)
deriving DecidableEq

/-- The destructured value at one index of the `.split(',').map(Number)`
array: `undefined` past the end, otherwise the `Number` result. -/
def toJsVal : Option (Option Int) → JsVal
  | none => .undef
  | some none => .nan
  | some (some i) => .num i

/-- What `parseData` extracts from one frame: `gesture.id = parseInt(id)`
(`none` = NaN), `name` (`none` = undefined, when the label segment has no
`:`), and the eight destructured sensor fields `f1,f2,ax,ay,az,gx,gy,gz`. -/
structure ParsedFrame where
  id : Option Int
  name : Option (List Char)
  sensors : List JsVal
deriving DecidableEq

/-- `parseData` from `GestureVisualizer.jsx` (its pure decoding part):
`const [gesturePart, sensorPart] = data.split('|')` — when `sensorPart` is
undefined (no `|` in the input), `sensorPart.split(',')` throws a
`TypeError` that the surrounding `try/catch` swallows, modelled as `none`;
otherwise `const [id, name] = gesturePart.split(':')` and
`const [f1,...,gz] = sensorPart.split(',').map(Number)` never throw, and
the frame decodes to `{ id: parseInt(id), name, sensors }`. -/
def parseData (data : List Char) : Option ParsedFrame :=
  let parts := splitOnChar '|' data
  (parts[1]?).map (fun sensorPart =>
    let labelParts := splitOnChar ':' (parts.headD [])
    let nums := (splitOnChar ',' sensorPart).map jsNumber
    { id := jsParseInt (labelParts.headD []),
      name := labelParts[1]?,
      sensors := [toJsVal nums[0]?, toJsVal nums[1]?, toJsVal nums[2]?,
        toJsVal nums[3]?, toJsVal nums[4]?, toJsVal nums[5]?,
        toJsVal nums[6]?, toJsVal nums[7]?] })

/-- The ASCII digit character for `d < 10`. -/
def digitChar (d : Nat) : Char := Char.ofNat (48 + d)

/-- Decimal rendering of a natural number (`printf "%u"` / JS `String`). -/
def natChars (n : Nat) : List Char :=
  if n = 0 then ['0'] else ((Nat.digits 10 n).map digitChar).reverse

/-- Decimal rendering of a signed integer (`printf "%d"`). -/
def intChars (i : Int) : List Char :=
  if i < 0 then '-' :: natChars i.natAbs else natChars i.natAbs

/-- The gesture-name table, identical in the firmware (`gestureNames`
PROGMEM array) and in `GestureVisualizer.jsx`. -/
def gestureNames : List (List Char) :=
  ["IDLE".toList, "FIST".toList, "OPEN_HAND".toList, "WAVE_LEFT".toList,
    "WAVE_RIGHT".toList, "TILT_UP".toList, "TILT_DOWN".toList,
    "TILT_RIGHT".toList, "TILT_LEFT".toList]

/-- The firmware's transmitted frame text:
`snprintf(buf, sizeof(buf), "%d:%s|%d,%d,%d,%d,%d,%d,%d,%d",
currentGesture, name, f1, f2, ax, ay, az, gx, gy, gz)`. -/
def encode (label : Nat) (name : List Char) (f1 f2 ax ay az gx gy gz : Int) :
    List Char :=
  natChars label ++ ':' :: (name ++ '|' ::
    (intChars f1 ++ ',' :: (intChars f2 ++ ',' :: (intChars ax ++ ',' :: (intChars ay ++
      ',' :: (intChars az ++ ',' :: (intChars gx ++ ',' :: (intChars gy ++
      ',' :: intChars gz))))))))

/-- `split` never yields an empty list of segments. -/
theorem splitOnChar_ne_nil (sep : Char) (l : List Char) : splitOnChar sep l ≠ [] := by
  cases l with
  | nil => simp [splitOnChar]
  | cons c rest =>
    simp only [splitOnChar]
    split <;> simp

/-- A string without the separator splits into itself alone. -/
theorem splitOnChar_eq_single (sep : Char) (l : List Char) (h : sep ∉ l) :
    splitOnChar sep l = [l] := by
  induction l with
  | nil => rfl
  | cons c rest ih =>
    simp only [List.mem_cons, not_or] at h
    have hcs : ¬c = sep := fun hc => h.1 hc.symm
    simp only [splitOnChar, ih h.2, if_neg hcs, List.headD_cons, List.tail_cons]

/-- Splitting a string whose first separator occurrence is explicit:
the prefix becomes the first segment. -/
theorem splitOnChar_append (sep : Char) (a b : List Char) (h : sep ∉ a) :
    splitOnChar sep (a ++ sep :: b) = a :: splitOnChar sep b := by
  induction a with
  | nil => simp [splitOnChar]
  | cons c a' ih =>
    simp only [List.mem_cons, not_or] at h
    have hcs : ¬c = sep := fun hc => h.1 hc.symm
    have hsplit := ih h.2
    simp only [List.cons_append, splitOnChar, List.append_eq, hsplit, if_neg hcs,
      List.headD_cons, List.tail_cons]

/-- The second segment of a split exists iff the separator occurs. -/
theorem splitOnChar_getElem1 (sep : Char) (l : List Char) :
    (splitOnChar sep l)[1]? = none ↔ sep ∉ l := by
  induction l with
  | nil => simp [splitOnChar]
  | cons c rest ih =>
    simp only [splitOnChar]
    by_cases hc : c = sep
    · subst hc
      simp only [if_pos rfl, List.mem_cons, not_or]
      obtain ⟨p, ps, hp⟩ := List.exists_cons_of_ne_nil (splitOnChar_ne_nil c rest)
      simp [hp]
    · obtain ⟨p, ps, hp⟩ := List.exists_cons_of_ne_nil (splitOnChar_ne_nil sep rest)
      rw [if_neg hc, hp]
      rw [hp] at ih
      simp only [List.headD_cons, List.tail_cons, List.getElem?_cons_succ,
        List.getElem?_cons_zero, List.mem_cons, not_or] at ih ⊢
      constructor
      · intro h0
        exact ⟨fun hcs => hc hcs.symm, ih.mp h0⟩
      · exact fun h => ih.mpr h.2

/-- `digitChar` renders the digits 0..9 at ASCII codes 48..57. -/
theorem digitChar_toNat : ∀ d < 10, (digitChar d).toNat = 48 + d := by decide

/-- `digitChar` of a digit passes the digit test. -/
theorem isDigitChar_digitChar : ∀ d < 10, isDigitChar (digitChar d) = true := by decide

/-- A digit character is none of the protocol's separator or sign
characters. -/
theorem isDigitChar_ne (c : Char) (h : isDigitChar c = true) :
    c ≠ '-' ∧ c ≠ '+' ∧ c ≠ '|' ∧ c ≠ ':' ∧ c ≠ ',' := by
  refine ⟨?_, ?_, ?_, ?_, ?_⟩ <;> rintro rfl <;> exact absurd h (by decide)

/-- Folding the decimal-accumulator over a rendered digit string recovers
the number (Horner evaluation of `Nat.digits`). -/
theorem digitsVal_foldl (l : List Nat) (hl : ∀ d ∈ l, d < 10) (a : Nat) :
    List.foldl (fun acc c => 10 * acc + (c.toNat - 48)) a ((l.map digitChar).reverse) =
      a * 10 ^ l.length + Nat.ofDigits 10 l := by
  induction l generalizing a with
  | nil => simp [Nat.ofDigits]
  | cons d l ih =>
    have hd : d < 10 := hl d (List.mem_cons_self d l)
    have hrest : ∀ x ∈ l, x < 10 := fun x hx => hl x (List.mem_cons_of_mem d hx)
    simp only [List.map_cons, List.reverse_cons, List.foldl_append, List.foldl_cons,
      List.foldl_nil]
    rw [ih hrest, digitChar_toNat d hd, Nat.ofDigits_cons, List.length_cons, pow_succ]
    have h48 : 48 + d - 48 = d := by omega
    rw [h48]
    ring

/-- Every character of a rendered natural number is a decimal digit. -/
theorem natChars_all_digits (n : Nat) : (natChars n).all isDigitChar = true := by
  unfold natChars
  split
  · decide
  · rw [List.all_eq_true]
    intro c hc
    rw [List.mem_reverse, List.mem_map] at hc
    obtain ⟨d, hd, rfl⟩ := hc
    exact isDigitChar_digitChar d (Nat.digits_lt_base (by norm_num) hd)

/-- The decimal rendering of a natural number is never empty. -/
theorem natChars_ne_nil (n : Nat) : natChars n ≠ [] := by
  unfold natChars
  split
  · simp
  case isFalse h =>
    simp only [ne_eq, List.reverse_eq_nil_iff, List.map_eq_nil_iff]
    exact Nat.digits_ne_nil_iff_ne_zero.mpr h

/-- Reading back the decimal rendering of `n` yields `n`. -/
theorem digitsVal_natChars (n : Nat) : digitsVal (natChars n) = n := by
  unfold natChars digitsVal
  split
  case isTrue h => subst h; decide
  case isFalse h =>
    rw [digitsVal_foldl (Nat.digits 10 n) (fun d hd => Nat.digits_lt_base (by norm_num) hd) 0,
      Nat.ofDigits_digits]
    omega

/-- `parseDigitsAll` accepts a rendered natural number. -/
theorem parseDigitsAll_natChars (n : Nat) : parseDigitsAll (natChars n) = some n := by
  unfold parseDigitsAll
  rw [if_pos ⟨natChars_ne_nil n, natChars_all_digits n⟩, digitsVal_natChars]

/-- JS `Number` reads back a rendered natural number. -/
theorem jsNumber_natChars (n : Nat) : jsNumber (natChars n) = some (n : Int) := by
  obtain ⟨c, rest, h⟩ := List.exists_cons_of_ne_nil (natChars_ne_nil n)
  have hall := natChars_all_digits n
  rw [h, List.all_cons, Bool.and_eq_true] at hall
  have hne := isDigitChar_ne c hall.1
  rw [h]
  simp only [jsNumber]
  rw [if_neg hne.1, if_neg hne.2.1, ← h, parseDigitsAll_natChars]
  rfl

/-- JS `Number` reads back a rendered signed integer. -/
theorem jsNumber_intChars (i : Int) : jsNumber (intChars i) = some i := by
  unfold intChars
  split
  case isTrue h =>
    simp only [jsNumber, if_true]
    rw [parseDigitsAll_natChars]
    show some (-Int.ofNat i.natAbs) = some i
    rw [Int.ofNat_eq_natCast]
    congr 1
    omega
  case isFalse h =>
    rw [jsNumber_natChars]
    congr 1
    omega

/-- `takeWhile` of a predicate all elements satisfy is the whole list. -/
theorem takeWhile_all_eq {p : Char → Bool} {l : List Char} (h : l.all p = true) :
    l.takeWhile p = l := by
  induction l with
  | nil => rfl
  | cons c rest ih =>
    rw [List.all_cons, Bool.and_eq_true] at h
    rw [List.takeWhile_cons_of_pos h.1, ih h.2]

/-- The maximal digit run of a rendered natural number is all of it. -/
theorem leadingDigitsVal_natChars (n : Nat) : leadingDigitsVal (natChars n) = some n := by
  unfold leadingDigitsVal
  rw [takeWhile_all_eq (natChars_all_digits n), if_neg (natChars_ne_nil n),
    digitsVal_natChars]

/-- JS `parseInt` reads back a rendered natural number. -/
theorem jsParseInt_natChars (n : Nat) : jsParseInt (natChars n) = some (n : Int) := by
  obtain ⟨c, rest, h⟩ := List.exists_cons_of_ne_nil (natChars_ne_nil n)
  have hall := natChars_all_digits n
  rw [h, List.all_cons, Bool.and_eq_true] at hall
  have hne := isDigitChar_ne c hall.1
  rw [h]
  simp only [jsParseInt]
  rw [if_neg hne.1, if_neg hne.2.1, ← h, leadingDigitsVal_natChars]
  rfl

/-- Every character of a rendered integer is a digit or the minus sign. -/
theorem mem_intChars (i : Int) (c : Char) (hc : c ∈ intChars i) :
    c = '-' ∨ isDigitChar c = true := by
  unfold intChars at hc
  split at hc
  · rcases List.mem_cons.mp hc with rfl | hm
    · exact Or.inl rfl
    · exact Or.inr (List.all_eq_true.mp (natChars_all_digits _) _ hm)
  · exact Or.inr (List.all_eq_true.mp (natChars_all_digits _) _ hc)

/-- A character that is neither a digit nor `-` does not occur in a
rendered integer. -/
theorem not_mem_intChars (i : Int) (c : Char) (h1 : c ≠ '-')
    (h2 : isDigitChar c = false) : c ∉ intChars i := by
  intro hm
  rcases mem_intChars i c hm with rfl | hd
  · exact h1 rfl
  · rw [hd] at h2
    cases h2

/-- A non-digit character does not occur in a rendered natural number. -/
theorem not_mem_natChars (n : Nat) (c : Char) (h : isDigitChar c = false) :
    c ∉ natChars n := by
  intro hm
  have := List.all_eq_true.mp (natChars_all_digits n) _ hm
  rw [this] at h
  cases h

/-- Decoding an encoded frame recovers the label (via `parseInt`), the name
and all eight sensor integers, for any name free of the separators. -/
theorem parseData_encode (label : Nat) (name : List Char)
    (f1 f2 ax ay az gx gy gz : Int)
    (hbar : '|' ∉ name) (hcolon : ':' ∉ name) :
    parseData (encode label name f1 f2 ax ay az gx gy gz) =
      some { id := some (label : Int), name := some name,
             sensors := [JsVal.num f1, JsVal.num f2, JsVal.num ax, JsVal.num ay,
               JsVal.num az, JsVal.num gx, JsVal.num gy, JsVal.num gz] } := by
  have hcomma : ∀ i : Int, ',' ∉ intChars i :=
    fun i => not_mem_intChars i ',' (by decide) (by decide)
  have hbarInt : ∀ i : Int, '|' ∉ intChars i :=
    fun i => not_mem_intChars i '|' (by decide) (by decide)
  have hgp : '|' ∉ natChars label ++ ':' :: name := by
    simp only [List.mem_append, List.mem_cons, not_or]
    exact ⟨not_mem_natChars label '|' (by decide), by decide, hbar⟩
  have hsp : '|' ∉ intChars f1 ++ ',' :: (intChars f2 ++ ',' :: (intChars ax ++
      ',' :: (intChars ay ++ ',' :: (intChars az ++ ',' :: (intChars gx ++
      ',' :: (intChars gy ++ ',' :: intChars gz)))))) := by
    simp only [List.mem_append, List.mem_cons, not_or]
    exact ⟨hbarInt f1, by decide, hbarInt f2, by decide, hbarInt ax, by decide,
      hbarInt ay, by decide, hbarInt az, by decide, hbarInt gx, by decide,
      hbarInt gy, by decide, hbarInt gz⟩
  have henc : encode label name f1 f2 ax ay az gx gy gz =
      (natChars label ++ ':' :: name) ++ '|' ::
        (intChars f1 ++ ',' :: (intChars f2 ++ ',' :: (intChars ax ++
          ',' :: (intChars ay ++ ',' :: (intChars az ++ ',' :: (intChars gx ++
          ',' :: (intChars gy ++ ',' :: intChars gz))))))) := by
    simp [encode, List.append_assoc]
  have hsplit_colon : splitOnChar ':' (natChars label ++ ':' :: name) =
      [natChars label, name] := by
    rw [splitOnChar_append ':' _ _ (not_mem_natChars label ':' (by decide)),
      splitOnChar_eq_single ':' name hcolon]
  have hsplit_comma : splitOnChar ',' (intChars f1 ++ ',' :: (intChars f2 ++
        ',' :: (intChars ax ++ ',' :: (intChars ay ++ ',' :: (intChars az ++
        ',' :: (intChars gx ++ ',' :: (intChars gy ++ ',' :: intChars gz))))))) =
      [intChars f1, intChars f2, intChars ax, intChars ay, intChars az,
        intChars gx, intChars gy, intChars gz] := by
    rw [splitOnChar_append ',' _ _ (hcomma f1), splitOnChar_append ',' _ _ (hcomma f2),
      splitOnChar_append ',' _ _ (hcomma ax), splitOnChar_append ',' _ _ (hcomma ay),
      splitOnChar_append ',' _ _ (hcomma az), splitOnChar_append ',' _ _ (hcomma gx),
      splitOnChar_append ',' _ _ (hcomma gy),
      splitOnChar_eq_single ',' _ (hcomma gz)]
  rw [henc]
  unfold parseData
  rw [splitOnChar_append '|' _ _ hgp, splitOnChar_eq_single '|' _ hsp]
  simp only [List.getElem?_cons_succ, List.getElem?_cons_zero, List.headD_cons,
    Option.map_some', hsplit_colon, hsplit_comma, List.map_cons, List.map_nil,
    jsNumber_intChars, jsParseInt_natChars, toJsVal]

/-- C2 counterexample: each of the malformed classes the claim says must
yield a ParseError in fact decodes to a successful result (`isSome`): a
frame with only 3 sensor fields, a frame where `|` appears twice, a frame
whose label segment lacks `:`, and a frame with a non-numeric sensor
field. -/
theorem parseData_malformed_accepted :
    (parseData ("1:FIST|1,2,3".toList)).isSome = true ∧
    (parseData ("1:FIST|1,2,3,4,5,6,7,8|9".toList)).isSome = true ∧
    (parseData ("1FIST|1,2,3,4,5,6,7,8".toList)).isSome = true ∧
    (parseData ("1:FIST|a,2,3,4,5,6,7,8".toList)).isSome = true := by
  decide

/-- C2 (amended): `parseData` returns a caught failure exactly when the
input contains no `|` (the undefined sensor segment's `.split` throws, and
the catch swallows it); every other malformed frame decodes to a tagged
success rather than a ParseError: segments after a second `|` are ignored,
a label segment without `:` yields an undefined name, missing sensor
fields come out undefined and extra ones are ignored, and a non-numeric
sensor field becomes NaN. -/
theorem parseData_error_only_missing_separator :
    (∀ data : List Char, parseData data = none ↔ '|' ∉ data) ∧
    parseData ("1:FIST 1,2,3".toList) = none ∧
    parseData ("1:FIST|1,2,3".toList) =
      some { id := some 1, name := some ("FIST".toList),
             sensors := [.num 1, .num 2, .num 3, .undef, .undef, .undef, .undef,
               .undef] } ∧
    parseData ("1:FIST|1,2,3,4,5,6,7,8|9".toList) =
      some { id := some 1, name := some ("FIST".toList),
             sensors := [.num 1, .num 2, .num 3, .num 4, .num 5, .num 6, .num 7,
               .num 8] } ∧
    parseData ("1FIST|1,2,3,4,5,6,7,8".toList) =
      some { id := some 1, name := none,
             sensors := [.num 1, .num 2, .num 3, .num 4, .num 5, .num 6, .num 7,
               .num 8] } ∧
    parseData ("1:FIST|a,2,3,4,5,6,7,8".toList) =
      some { id := some 1, name := some ("FIST".toList),
             sensors := [.nan, .num 2, .num 3, .num 4, .num 5, .num 6, .num 7,
               .num 8] } := by
  refine ⟨?_, by decide, by decide, by decide, by decide, by decide⟩
  intro data
  unfold parseData
  rw [Option.map_eq_none']
  exact splitOnChar_getElem1 '|' data

/-- C3: for every label 0..8 with its canonical uppercase name and any
eight signed 16-bit sensor integers, decoding the encoded wire string
`"<id>:<name>|<f1>,<f2>,<ax>,<ay>,<az>,<gx>,<gy>,<gz>"` yields back
exactly the same label, name and eight sensor values. -/
theorem wire_roundtrip (label : Nat) (f1 f2 ax ay az gx gy gz : Int)
    (hlabel : label ≤ 8)
    (hf1 : -32768 ≤ f1 ∧ f1 ≤ 32767) (hf2 : -32768 ≤ f2 ∧ f2 ≤ 32767)
    (hax : -32768 ≤ ax ∧ ax ≤ 32767) (hay : -32768 ≤ ay ∧ ay ≤ 32767)
    (haz : -32768 ≤ az ∧ az ≤ 32767) (hgx : -32768 ≤ gx ∧ gx ≤ 32767)
    (hgy : -32768 ≤ gy ∧ gy ≤ 32767) (hgz : -32768 ≤ gz ∧ gz ≤ 32767) :
    parseData (encode label (gestureNames.getD label []) f1 f2 ax ay az gx gy gz) =
      some { id := some (label : Int), name := some (gestureNames.getD label []),
             sensors := [JsVal.num f1, JsVal.num f2, JsVal.num ax, JsVal.num ay,
               JsVal.num az, JsVal.num gx, JsVal.num gy, JsVal.num gz] } := by
  have hn : '|' ∉ gestureNames.getD label [] ∧ ':' ∉ gestureNames.getD label [] := by
    interval_cases label <;> exact ⟨by decide, by decide⟩
  exact parseData_encode label _ f1 f2 ax ay az gx gy gz hn.1 hn.2

/-- Witness for the round-trip theorem: label 4 (WAVE_RIGHT) with concrete
int16 sensor values, including negative ones and the range endpoints. -/
theorem wire_roundtrip_witness :
    parseData (encode 4 (gestureNames.getD 4 [])
        2600 (-100) 14001 0 (-32768) 32767 5 (-8001)) =
      some { id := some 4, name := some (gestureNames.getD 4 []),
             sensors := [JsVal.num 2600, JsVal.num (-100), JsVal.num 14001,
               JsVal.num 0, JsVal.num (-32768), JsVal.num 32767, JsVal.num 5,
               JsVal.num (-8001)] } :=
  wire_roundtrip 4 2600 (-100) 14001 0 (-32768) 32767 5 (-8001) (by norm_num)
    (by norm_num) (by norm_num) (by norm_num) (by norm_num) (by norm_num)
    (by norm_num) (by norm_num) (by norm_num)

/-! ## Host-side classifier (`ml/GestureClassifier.js`)

The opaque TensorFlow.js model is abstracted by a type parameter `M`;
JS numbers on this path are modelled as rationals. -/

/-- The sensor-data object handed to the classifier (fields
`flex1, flex2, ax, ay, az, gx, gy, gz`). -/
structure SensorData where
  flex1 : ℚ
  flex2 : ℚ
  ax : ℚ
  ay : ℚ
  az : ℚ
  gx : ℚ
  gy : ℚ
  gz : ℚ
deriving DecidableEq

/-- The `features` array built identically in `addSample` and `predict`. -/
def featuresOf (d : SensorData) : List ℚ :=
  [d.flex1, d.flex2, d.ax, d.ay, d.az, d.gx, d.gy, d.gz]

/-- `normalizeFeatures`: the two flex channels divide by 4095 (device ADC
max), the six motion channels divide by 32768 (signed 16-bit range); no
clamping anywhere. -/
def normalizeFeatures (features : List ℚ) : List ℚ :=
  [features.getD 0 0 / 4095,
    features.getD 1 0 / 4095,
    features.getD 2 0 / 32768,
    features.getD 3 0 / 32768,
    features.getD 4 0 / 32768,
    features.getD 5 0 / 32768,
    features.getD 6 0 / 32768,
    features.getD 7 0 / 32768]

/-- The mutable state of a `GestureClassifier` instance: the live model
(`null` allowed), the `isTraining` flag, and the sample store
(`trainingData` paired with `labels`). -/
structure ClassifierState (M : Type) where
  model : Option M
  isTraining : Bool
  trainingData : List (List ℚ)
  labels : List Int

variable {M : Type}

/-- The state after `new GestureClassifier()`. -/
def ClassifierState.init (M : Type) : ClassifierState M :=
  { model := none, isTraining := false, trainingData := [], labels := [] }

/-- `addSample(sensorData, gestureId)`: push the normalized feature vector
and the label. -/
def addSample (st : ClassifierState M) (d : SensorData) (gestureId : Int) :
    ClassifierState M :=
  { st with
      trainingData := st.trainingData ++ [normalizeFeatures (featuresOf d)],
      labels := st.labels ++ [gestureId] }

/-- `clearTrainingData()`. -/
def clearTrainingData (st : ClassifierState M) : ClassifierState M :=
  { st with trainingData := [], labels := [] }

/-- The input row `predict` feeds the model:
`tf.tensor2d([this.normalizeFeatures(features)])`. -/
def predictInput (d : SensorData) : List ℚ :=
  normalizeFeatures (featuresOf d)

/-- The one failure `train` can raise before doing anything:
`throw new Error('Need at least 10 samples to train')`. -/
inductive TrainError where
  | insufficientData
deriving DecidableEq

/-- `train(onProgress)` as a state transformer: fewer than 10 samples in
the store throws the insufficient-data error before any mutation;
otherwise training runs to completion (`model.fit`, abstracted by the
`fit` oracle, then `saveModel`, then `isTraining = false`). Returns the
state as left by the call together with the error, if any. -/
def train (fit : List (List ℚ) → List Int → M) (st : ClassifierState M) :
    ClassifierState M × Option TrainError :=
  if st.trainingData.length < 10 then (st, some TrainError.insufficientData)
  else
    ({ st with model := some (fit st.trainingData st.labels), isTraining := false },
      none)

/-- `getTrainingStats()`: `totalSamples` (the training-data length) and
the per-class counts (the JS object keyed by the labels present). -/
def getTrainingStats (st : ClassifierState M) : Nat × (Int → Nat) :=
  (st.trainingData.length, fun l => st.labels.count l)

/-! ### Persistence (IndexedDB)

A browser IndexedDB environment is a finite map from database names to
database contents. TensorFlow.js's `indexeddb://` IO handler keeps every
model in the one fixed database named `tensorflowjs` (object store
`models_store`), keyed by the path after the scheme — that documented
layout is what `putRecord`/`getRecord` model. -/

/-- IndexedDB: database name to list of `(model key, model)` records. -/
def IndexedDBEnv (M : Type) := List (String × List (String × M))

/-- The fixed database TensorFlow.js stores `indexeddb://` models in. -/
def tfjsDB : String := "tensorflowjs"

/-- Look a key up in one database's records. -/
def lookupKey : List (String × M) → String → Option M
  | [], _ => none
  | (k, m) :: rest, key => if k = key then some m else lookupKey rest key

/-- Write a record into the named database, creating it if missing. -/
def putRecord : IndexedDBEnv M → String → String → M → IndexedDBEnv M
  | [], db, key, m => [(db, [(key, m)])]
  | (n, recs) :: rest, db, key, m =>
    if n = db then (n, (key, m) :: recs) :: rest
    else (n, recs) :: putRecord rest db key m

/-- Read a record from the named database. -/
def getRecord : IndexedDBEnv M → String → String → Option M
  | [], _, _ => none
  | (n, recs) :: rest, db, key =>
    if n = db then lookupKey recs key else getRecord rest db key

/-- `indexedDB.deleteDatabase(name)`: removes the database of that name
(and nothing else). -/
def deleteDatabase : IndexedDBEnv M → String → IndexedDBEnv M
  | [], _ => []
  | (n, recs) :: rest, db =>
    if n = db then deleteDatabase rest db
    else (n, recs) :: deleteDatabase rest db

/-- `saveModel()`: `this.model.save('indexeddb://gesture-model')` writes
the in-memory model into the `tensorflowjs` database under key
`gesture-model`; with no model the call throws and the catch swallows it
(storage unchanged). -/
def saveModel (st : ClassifierState M) (env : IndexedDBEnv M) : IndexedDBEnv M :=
  match st.model with
  | some m => putRecord env tfjsDB "gesture-model" m
  | none => env

/-- `loadModel()`: `tf.loadLayersModel('indexeddb://gesture-model')`;
returns `true` and installs the model iff the record exists. -/
def loadModel (st : ClassifierState M) (env : IndexedDBEnv M) :
    ClassifierState M × Bool :=
  match getRecord env tfjsDB "gesture-model" with
  | some m => ({ st with model := some m }, true)
  | none => (st, false)

/-- `reset()`: clears the in-memory model and both sample lists, then
calls `indexedDB.deleteDatabase('gesture-model')` — the database named
`gesture-model`, which is not the `tensorflowjs` database the record was
saved into. -/
def reset (st : ClassifierState M) (env : IndexedDBEnv M) :
    ClassifierState M × IndexedDBEnv M :=
  ({ st with model := none, trainingData := [], labels := [] },
    deleteDatabase env "gesture-model")

/-! ## Arbitration (`parseData` lines 113-142) -/

/-- A prediction as `predict` returns it: arg-max class id, its
probability, and the full per-class distribution. -/
structure Prediction where
  gestureId : Nat
  confidence : ℚ
  probabilities : List ℚ
deriving DecidableEq

/-- The gesture object `parseData` surfaces: label id and name, plus the
`mlPredicted` flag (absent on the rule-based object, modelled `false`). -/
structure SurfacedGesture where
  id : Option Int
  name : Option (List Char)
  mlPredicted : Bool
deriving DecidableEq

/-- The ML arbitration of `parseData`: starting from the rule-based
gesture `{ id: parseInt(id), name }` carried in the frame, if the ML
toggle is on, the classifier's model exists, and prediction succeeded
(`pred = none` models a throw) with confidence above 0.5, the surfaced
gesture is the classifier's — name looked up with the `|| 'UNKNOWN'`
fallback — flagged `mlPredicted`, and the surfaced ML confidence is the
prediction's; in every other case the rule-based gesture is surfaced and
the ML confidence is reported as 0. -/
def arbitrate (useML modelAvailable : Bool) (ruleId : Option Int)
    (ruleName : Option (List Char)) (pred : Option Prediction) :
    SurfacedGesture × ℚ :=
  if useML = true ∧ modelAvailable = true then
    match pred with
    | some p =>
      if p.confidence > 1/2 then
        ({ id := some (p.gestureId : Int),
           name := some (gestureNames.getD p.gestureId ("UNKNOWN".toList)),
           mlPredicted := true }, p.confidence)
      else ({ id := ruleId, name := ruleName, mlPredicted := false }, 0)
    | none => ({ id := ruleId, name := ruleName, mlPredicted := false }, 0)
  else ({ id := ruleId, name := ruleName, mlPredicted := false }, 0)

/-- C4: with ML mode enabled (toggle on, classifier model present) and a
successful prediction, a confidence above 0.5 surfaces the classifier's
label flagged model-derived, with the prediction's confidence; a
confidence at most 0.5 (e.g. 0.49) surfaces the rule-based label carried
in the wire frame, unflagged, with a reported ML confidence of 0. -/
theorem arbitration_half_threshold (p : Prediction) (ruleId : Option Int)
    (ruleName : Option (List Char)) :
    (1/2 < p.confidence →
      arbitrate true true ruleId ruleName (some p) =
        ({ id := some (p.gestureId : Int),
           name := some (gestureNames.getD p.gestureId ("UNKNOWN".toList)),
           mlPredicted := true }, p.confidence)) ∧
    (p.confidence ≤ 1/2 →
      arbitrate true true ruleId ruleName (some p) =
        ({ id := ruleId, name := ruleName, mlPredicted := false }, 0)) := by
  constructor
  · intro h
    have h' : (2 : ℚ)⁻¹ < p.confidence := by rwa [one_div] at h
    simp [arbitrate, h']
  · intro h
    have h' : ¬(2 : ℚ)⁻¹ < p.confidence := by rw [← one_div]; exact not_lt.mpr h
    simp [arbitrate, h']

/-- C6: `normalizeFeatures` divides both flex channels by 4095 and all
six motion channels by 32768 with no clamping — flex 0 maps to 0 and 4095
to 1, motion −32768 to −1 and 32767 to 32767/32768 (≈1), and out-of-range
raw inputs propagate unclamped outside [0,1] and [−1,−1] — and the one
normalization function is what `addSample` stores when recording and what
`predict` feeds the model at inference. -/
theorem normalization_contract :
    (∀ d : SensorData, normalizeFeatures (featuresOf d) =
      [d.flex1 / 4095, d.flex2 / 4095, d.ax / 32768, d.ay / 32768,
        d.az / 32768, d.gx / 32768, d.gy / 32768, d.gz / 32768]) ∧
    ((0 : ℚ) / 4095 = 0 ∧ (4095 : ℚ) / 4095 = 1 ∧
      (-32768 : ℚ) / 32768 = -1 ∧ (32767 : ℚ) / 32768 = 32767 / 32768) ∧
    (∀ x : ℚ, 4095 < x → 1 < x / 4095) ∧
    (∀ x : ℚ, x < -32768 → x / 32768 < -1) ∧
    (∀ (M : Type) (st : ClassifierState M) (d : SensorData) (g : Int),
      (addSample st d g).trainingData =
        st.trainingData ++ [normalizeFeatures (featuresOf d)]) ∧
    (∀ d : SensorData, predictInput d = normalizeFeatures (featuresOf d)) := by
  refine ⟨?_, by norm_num, ?_, ?_, ?_, ?_⟩
  · intro d
    simp [normalizeFeatures, featuresOf]
  · intro x hx
    rw [lt_div_iff₀ (by norm_num : (0:ℚ) < 4095)]
    linarith
  · intro x hx
    rw [div_lt_iff₀ (by norm_num : (0:ℚ) < 32768)]
    linarith
  · intro M st d g
    rfl
  · intro d
    rfl

/-- C7: `train()` on a store with fewer than 10 samples (e.g. 9) fails
with the insufficient-data error and mutates no state — the returned
state is the input state, sample store, labels and model included — and
with 10 or more samples the call proceeds to training without that
error. -/
theorem train_gate_ten_samples (M : Type) (fit : List (List ℚ) → List Int → M)
    (st : ClassifierState M) :
    (st.trainingData.length < 10 →
      train fit st = (st, some TrainError.insufficientData)) ∧
    (10 ≤ st.trainingData.length → (train fit st).2 = none) := by
  constructor
  · intro h
    simp [train, h]
  · intro h
    simp [train, Nat.not_lt.mpr h]

/-- Writing then reading the same database and key yields the record. -/
theorem getRecord_putRecord (env : IndexedDBEnv M) (db key : String) (m : M) :
    getRecord (putRecord env db key m) db key = some m := by
  induction env with
  | nil => simp [putRecord, getRecord, lookupKey]
  | cons e rest ih =>
    obtain ⟨n, recs⟩ := e
    by_cases hn : n = db
    · subst hn
      simp [putRecord, getRecord, lookupKey]
    · simp [putRecord, getRecord, hn, ih]

/-- Deleting one database leaves every other database's records intact. -/
theorem getRecord_deleteDatabase (env : IndexedDBEnv M) (db dbDel key : String)
    (h : db ≠ dbDel) :
    getRecord (deleteDatabase env dbDel) db key = getRecord env db key := by
  induction env with
  | nil => rfl
  | cons e rest ih =>
    obtain ⟨n, recs⟩ := e
    by_cases hn : n = dbDel
    · subst hn
      have : ¬n = db := fun hc => h hc.symm
      simp [deleteDatabase, getRecord, this, ih]
    · by_cases hd : n = db
      · subst hd
        simp [deleteDatabase, getRecord, hn]
      · simp [deleteDatabase, getRecord, hn, hd, ih]

/-- C9, the code evaluated at the failing scenario: `reset()` does clear
the in-memory model and both sample lists, but after `saveModel()` has
persisted the model, `reset()` leaves the persisted record in place —
`indexedDB.deleteDatabase('gesture-model')` deletes a database named
`gesture-model`, while the record lives in the `tensorflowjs` database
under key `gesture-model` — so the subsequent `loadModel()` still finds
it instead of behaving as on first use. -/
theorem reset_leaves_persisted_model (M : Type) (m : M) (st : ClassifierState M)
    (env : IndexedDBEnv M) (hm : st.model = some m) :
    ((reset st (saveModel st env)).1.model = none ∧
      (reset st (saveModel st env)).1.trainingData = [] ∧
      (reset st (saveModel st env)).1.labels = []) ∧
    (loadModel (reset st (saveModel st env)).1 (reset st (saveModel st env)).2).2
      = true := by
  refine ⟨⟨rfl, rfl, rfl⟩, ?_⟩
  unfold loadModel reset saveModel
  rw [hm]
  rw [getRecord_deleteDatabase _ _ _ _ (by decide), getRecord_putRecord]

/-- Witness for the persisted-record theorem: a one-model state over the
trivial model type and empty storage. -/
theorem reset_leaves_persisted_model_witness :
    ((reset (ClassifierState.mk (some ()) false [] [])
        (saveModel (ClassifierState.mk (some ()) false [] []) [])).1.model = none ∧
      (reset (ClassifierState.mk (some ()) false [] [])
        (saveModel (ClassifierState.mk (some ()) false [] []) [])).1.trainingData = [] ∧
      (reset (ClassifierState.mk (some ()) false [] [])
        (saveModel (ClassifierState.mk (some ()) false [] []) [])).1.labels = []) ∧
    (loadModel
        (reset (ClassifierState.mk (some ()) false [] [])
          (saveModel (ClassifierState.mk (some ()) false [] []) [])).1
        (reset (ClassifierState.mk (some ()) false [] [])
          (saveModel (ClassifierState.mk (some ()) false [] []) [])).2).2 = true :=
  reset_leaves_persisted_model Unit () (ClassifierState.mk (some ()) false [] []) [] rfl

/-- The classifier operations C10's invariant ranges over. -/
inductive ClassifierOp where
  | addSample (d : SensorData) (gestureId : Int)
  | clearTrainingData
  | reset

/-- Apply one operation to the classifier state and its storage. -/
def applyOp (p : ClassifierState M × IndexedDBEnv M) :
    ClassifierOp → ClassifierState M × IndexedDBEnv M
  | .addSample d g => (addSample p.1 d g, p.2)
  | .clearTrainingData => (clearTrainingData p.1, p.2)
  | .reset => reset p.1 p.2

/-- Run a sequence of operations. -/
def runOps (p : ClassifierState M × IndexedDBEnv M) (ops : List ClassifierOp) :
    ClassifierState M × IndexedDBEnv M :=
  ops.foldl applyOp p

/-- One operation preserves equality of the two list lengths. -/
theorem applyOp_preserves_length (p : ClassifierState M × IndexedDBEnv M)
    (op : ClassifierOp) (h : p.1.trainingData.length = p.1.labels.length) :
    (applyOp p op).1.trainingData.length = (applyOp p op).1.labels.length := by
  cases op with
  | addSample d g => simp [applyOp, addSample, h]
  | clearTrainingData => simp [applyOp, clearTrainingData]
  | reset => simp [applyOp, reset]

/-- Any run from a length-balanced state stays length-balanced. -/
theorem runOps_preserves_length (ops : List ClassifierOp) :
    ∀ p : ClassifierState M × IndexedDBEnv M,
      p.1.trainingData.length = p.1.labels.length →
      (runOps p ops).1.trainingData.length = (runOps p ops).1.labels.length := by
  induction ops with
  | nil => exact fun p h => h
  | cons op rest ih =>
    intro p h
    exact ih (applyOp p op) (applyOp_preserves_length p op h)

/-- C10: along every sequence of `addSample` / `clearTrainingData` /
`reset` operations from a freshly constructed classifier, the
training-data list and the label list have equal length — `addSample`
appends exactly one feature vector and one label, and the other two empty
both together — and consequently `getTrainingStats` reports a
`totalSamples` equal to the sum of the per-class counts over the classes
present. -/
theorem sample_store_balanced (M : Type) (env0 : IndexedDBEnv M)
    (ops : List ClassifierOp) :
    (runOps (ClassifierState.init M, env0) ops).1.trainingData.length =
      (runOps (ClassifierState.init M, env0) ops).1.labels.length ∧
    (getTrainingStats (runOps (ClassifierState.init M, env0) ops).1).1 =
      ((runOps (ClassifierState.init M, env0) ops).1.labels.dedup.map
        (fun l => (getTrainingStats (runOps (ClassifierState.init M, env0) ops).1).2 l)).sum := by
  have hlen := runOps_preserves_length ops (ClassifierState.init M, env0) rfl
  refine ⟨hlen, ?_⟩
  show (runOps (ClassifierState.init M, env0) ops).1.trainingData.length = _
  rw [hlen]
  exact (List.sum_map_count_dedup_eq_length _).symm

end GestureGlove
